import Mathlib

/-!
Shallow embedding of the two host programs of this repository:
`00-lua-state/hello-world.cpp` and
`02-calling-lua-function/calling-lua-function.cpp`.

The interpreter's value stack is a `List Value` whose head is the top of
the stack.  The embedded interpreter itself is an external library; its
primitives are embedded by their documented stack effects: `lua_pcall`
consumes the callable and the arguments and pushes either the declared
number of results (on `LUA_OK`) or a single error value (on a non-`OK`
status), while `lua_call` does the same on success but propagates a
raised error out of the host function entirely (modelled as `none`).
What the script actually does when invoked is a parameter of the
embedding (`CallOutcome` / `PcallOutcome`).  Every bridge function also
returns the list of its observable events (diagnostic prints and
invocations of the call primitives) in program order, so that claims of
the form "reports X before invoking Y" can be stated.
-/

/-- Tagged interpreter values (spec section 3: nil, boolean, number,
string, callable, ...).  Host C callables are distinguished from
script-defined callables the way the interpreter distinguishes them. -/
inductive Value where
  | nil
  | boolean (b : Bool)
  | number (n : Int)
  | str (s : String)
  | luafunction (name : String)
  | cfunction (id : Nat)
  | table (id : Nat)
deriving DecidableEq, Repr

/-- The global environment of one interpreter instance: a name is mapped
to `Value.nil` when absent (that is what `lua_getglobal` pushes). -/
def Env : Type := String → Value

/-- Observable events of a bridge function, in program order. -/
inductive Event where
  | printErr (s : String)
  | printOut (s : String)
  | callInvoked (nargs nresults : Nat)
  | pcallInvoked (nargs nresults : Nat)
deriving DecidableEq, Repr

/-- The non-`OK` statuses `lua_pcall` can return and the host code
checks for: `LUA_ERRRUN`, `LUA_ERRMEM`, `LUA_ERRERR`, `LUA_ERRGCMM`. -/
inductive ErrStatus where
  | errrun
  | errmem
  | errerr
  | errgcmm
deriving DecidableEq, Repr

/-- Status returned by `lua_pcall`: `LUA_OK` or a non-`OK` status. -/
inductive Status where
  | ok
  | err (e : ErrStatus)
deriving DecidableEq, Repr

/-- What the interpreter does when a protected call is invoked: run to
completion with a list of results, or fail with a status and the final
error value (already augmented by the message handler when one was
installed for the call). -/
inductive PcallOutcome where
  | success (results : List Value)
  | failure (status : ErrStatus) (errval : Value)
deriving DecidableEq, Repr

/-- What the interpreter does when an unprotected call is invoked:
run to completion with results, or raise; an unprotected raise does not
return control to the calling host function. -/
inductive CallOutcome where
  | success (results : List Value)
  | raise (errval : Value)
deriving DecidableEq, Repr

/-- `lua_getglobal L name` pushes the value of the global `name`
(`nil` when the name is absent from the environment). -/
def lua_getglobal (env : Env) (stack : List Value) (name : String) : List Value :=
  env name :: stack

/-- `lua_pushstring`. -/
def lua_pushstring (stack : List Value) (s : String) : List Value :=
  Value.str s :: stack

/-- `lua_pushcfunction` (the host pushes one of its own callables). -/
def lua_pushcfunction (stack : List Value) (id : Nat) : List Value :=
  Value.cfunction id :: stack

/-- `lua_gettop`: the current stack depth. -/
def lua_gettop (stack : List Value) : Nat :=
  stack.length

/-- `lua_pop L n` removes the `n` topmost values. -/
def lua_pop (stack : List Value) (n : Nat) : List Value :=
  stack.drop n

/-- `lua_settop L top`: shrink the stack to depth `top` (or pad with
`nil` when growing, which the host code never does). -/
def lua_settop (stack : List Value) (top : Nat) : List Value :=
  if top ≤ stack.length then stack.drop (stack.length - top)
  else List.replicate (top - stack.length) Value.nil ++ stack

/-- `lua_isnil(L, -1)`: is the value at the top of the stack `nil`? -/
def lua_isnil (stack : List Value) : Bool :=
  match stack with
  | v :: _ => decide (v = Value.nil)
  | [] => false

/-- `lua_tostring` on a single value: a string for string and number
values, and a null pointer (`none`) for every other tag. -/
def lua_tostringValue : Value → Option String
  | Value.str s => some s
  | Value.number n => some (toString n)
  | _ => none

/-- `lua_tostring(L, -i)` for a negative index `-i` (so `i = 1` is the
top of the stack). -/
def lua_tostringNeg (stack : List Value) (i : Nat) : Option String :=
  match stack.get? (i - 1) with
  | some v => lua_tostringValue v
  | none => none

/-- Printing a `const char *` that may be null. -/
def showCStr : Option String → String
  | some s => s
  | none => "(null)"

/-- `lua_remove(L, -i)` for a negative index: remove the `i`-th value
counted from the top. -/
def lua_removeNeg (stack : List Value) (i : Nat) : List Value :=
  stack.take (i - 1) ++ stack.drop i

/-- A protected or unprotected call invoked with a fixed declared result
count `n` adjusts the actual results to exactly `n` values (truncating
extras, padding with `nil`). -/
def adjustResults (nresults : Nat) (results : List Value) : List Value :=
  results.take nresults ++ List.replicate (nresults - results.length) Value.nil

/-- `lua_pcall L nargs nresults msgh`: pops the callable and the `nargs`
arguments; on success pushes exactly `nresults` values and returns
`LUA_OK`; on failure pushes the single (handler-augmented) error value
and returns the non-`OK` status.  An installed message handler sits
below the callable and is not touched by the primitive itself. -/
def lua_pcall (stack : List Value) (nargs nresults : Nat)
    (outcome : PcallOutcome) : Status × List Value :=
  let base := stack.drop (nargs + 1)
  match outcome with
  | PcallOutcome.success results =>
      (Status.ok, (adjustResults nresults results).reverse ++ base)
  | PcallOutcome.failure st errval =>
      (Status.err st, errval :: base)

/-- `lua_call L nargs nresults`: pops the callable and the arguments and
pushes exactly `nresults` values on success; a raised error propagates
out of the calling host function (no recoverable return), modelled as
`none`. -/
def lua_call (stack : List Value) (nargs nresults : Nat)
    (outcome : CallOutcome) : Option (List Value) :=
  let base := stack.drop (nargs + 1)
  match outcome with
  | CallOutcome.success results =>
      some ((adjustResults nresults results).reverse ++ base)
  | CallOutcome.raise _ => none

/-- `luaL_traceback L L msg level` builds the traceback text: when `msg`
is non-null the text starts with `msg` followed by the stack traceback;
when `msg` is null only the traceback is produced.  `frames` is the
current call stack, innermost frame first; `level` innermost frames are
skipped. -/
def tracebackBody (level : Nat) (frames : List String) : String :=
  (frames.drop level).foldl (fun acc f => acc ++ "\n\t" ++ f) "stack traceback:"

/-- The string pushed by `luaL_traceback` for a possibly-null message. -/
def tracebackString (msg : Option String) (level : Nat) (frames : List String) : String :=
  match msg with
  | some m => m ++ "\n" ++ tracebackBody level frames
  | none => tracebackBody level frames

/-- Identity of the host callable `messageHandler` on the stack. -/
def messageHandlerId : Nat := 0

/-- `messageHandler` from `calling-lua-function.cpp`: reads the textual
form of the error value at the top of its stack frame (`lua_tostring`),
pushes `luaL_traceback(L, L, errorMsg, 1)`, removes the original error
value (`lua_remove(L, -2)`) and returns `1` (one result). -/
def messageHandler (stack : List Value) (frames : List String) : Nat × List Value :=
  let errorMsg := lua_tostringNeg stack 1
  let stack1 := Value.str (tracebackString errorMsg 1 frames) :: stack
  let stack2 := lua_removeNeg stack1 2
  (1, stack2)

/-- `callHello` from `calling-lua-function.cpp`: push the global
`hello`; if it is `nil`, print a diagnostic and return (leaving the
pushed `nil` on the stack); otherwise `lua_call(L, 0, 0)`. -/
def callHello (env : Env) (stack : List Value) (outcome : CallOutcome) :
    List Event × Option (List Value) :=
  let stack1 := lua_getglobal env stack "hello"
  if lua_isnil stack1 then
    ([Event.printErr "Global function hello not found\n"], some stack1)
  else
    ([Event.callInvoked 0 0], lua_call stack1 0 0 outcome)

/-- `callSwap` from `calling-lua-function.cpp`: push the global `swap`
(no nil check), push `"red"` and `"green"`, `lua_call(L, 2, 2)`, read
the two results, print them, pop them. -/
def callSwap (env : Env) (stack : List Value) (outcome : CallOutcome) :
    List Event × Option (List Value) :=
  let stack1 := lua_getglobal env stack "swap"
  let stack2 := lua_pushstring stack1 "red"
  let stack3 := lua_pushstring stack2 "green"
  match lua_call stack3 2 2 outcome with
  | none => ([Event.callInvoked 2 2], none)
  | some stack4 =>
      let first := lua_tostringNeg stack4 2
      let second := lua_tostringNeg stack4 1
      ([Event.callInvoked 2 2,
        Event.printOut ("swap() returned " ++ showCStr first ++ " and "
          ++ showCStr second ++ "\n")],
       some (lua_pop stack4 2))

/-- The stack and status exactly when `lua_pcall(L, 0, 0, 0)` returns
inside `pcallFail` (the global `fail` pushed, then the protected call
invoked), before any popping by the caller. -/
def pcallFailAtReturn (env : Env) (stack : List Value) (outcome : PcallOutcome) :
    Status × List Value :=
  lua_pcall (lua_getglobal env stack "fail") 0 0 outcome

/-- `pcallFail` from `calling-lua-function.cpp`: push the global `fail`;
if it is `nil`, print a diagnostic and return early; otherwise
`lua_pcall(L, 0, 0, 0)` and dispatch on the result: on `LUA_ERRRUN`
print the error text and pop the error value; on `LUA_ERRMEM`,
`LUA_ERRERR`, `LUA_ERRGCMM` print the status name and return (without
popping). -/
def pcallFail (env : Env) (stack : List Value) (outcome : PcallOutcome) :
    List Event × List Value :=
  if lua_isnil (lua_getglobal env stack "fail") then
    ([Event.printErr "Global function fail not found\n"],
     lua_getglobal env stack "fail")
  else
    match pcallFailAtReturn env stack outcome with
    | (Status.ok, stack2) =>
        ([Event.pcallInvoked 0 0], stack2)
    | (Status.err ErrStatus.errrun, stack2) =>
        ([Event.pcallInvoked 0 0,
          Event.printErr ("Error: " ++ showCStr (lua_tostringNeg stack2 1) ++ "\n")],
         lua_pop stack2 1)
    | (Status.err ErrStatus.errmem, stack2) =>
        ([Event.pcallInvoked 0 0, Event.printErr "LUA_ERRMEM\n"], stack2)
    | (Status.err ErrStatus.errerr, stack2) =>
        ([Event.pcallInvoked 0 0, Event.printErr "LUA_ERRERR\n"], stack2)
    | (Status.err ErrStatus.errgcmm, stack2) =>
        ([Event.pcallInvoked 0 0, Event.printErr "LUA_ERRGCMM\n"], stack2)

/-- The stack and status exactly when `lua_pcall(L, 1, 2, handlerIndex)`
returns inside `pcallSwap` (handler pushed, global `swap` pushed with no
nil check, `"red"` pushed, protected call invoked), before any popping
by the caller. -/
def pcallSwapAtReturn (env : Env) (stack : List Value) (outcome : PcallOutcome) :
    Status × List Value :=
  let stack1 := lua_pushcfunction stack messageHandlerId
  let stack2 := lua_getglobal env stack1 "swap"
  let stack3 := lua_pushstring stack2 "red"
  lua_pcall stack3 1 2 outcome

/-- `pcallSwap` from `calling-lua-function.cpp`: record `top`, push the
error handler, push the global `swap` (no nil check), push the single
argument `"red"`, `lua_pcall(L, 1, 2, handlerIndex)`; on `LUA_ERRRUN`
print the traceback and pop the error value (returning early, before
the `lua_settop` line); on the other non-`OK` statuses print the status
name and return; on `LUA_OK` revert the stack with `lua_settop(L, top)`. -/
def pcallSwap (env : Env) (stack : List Value) (outcome : PcallOutcome) :
    List Event × List Value :=
  let top := lua_gettop stack
  match pcallSwapAtReturn env stack outcome with
  | (Status.ok, stack4) =>
      ([Event.pcallInvoked 1 2], lua_settop stack4 top)
  | (Status.err ErrStatus.errrun, stack4) =>
      ([Event.pcallInvoked 1 2,
        Event.printErr (showCStr (lua_tostringNeg stack4 1) ++ "\n")],
       lua_pop stack4 1)
  | (Status.err ErrStatus.errmem, stack4) =>
      ([Event.pcallInvoked 1 2, Event.printErr "LUA_ERRMEM\n"], stack4)
  | (Status.err ErrStatus.errerr, stack4) =>
      ([Event.pcallInvoked 1 2, Event.printErr "LUA_ERRERR\n"], stack4)
  | (Status.err ErrStatus.errgcmm, stack4) =>
      ([Event.pcallInvoked 1 2, Event.printErr "LUA_ERRGCMM\n"], stack4)

/-- Outcome of one process run: the exit code (`none` when the process
aborted through an unprotected raise) and how many times `lua_close`
ran on that path. -/
structure ProcResult where
  exitCode : Option Int
  closes : Nat
deriving DecidableEq, Repr

/-- `main` of `hello-world.cpp`: create the state (abort with `-1` when
creation fails), run the sample code with `luaL_dostring` (early return
`-1` on failure, without `lua_close`), then `lua_close` and return `0`.
`createOk` and `dostringOk` stand for the outcomes of the external
steps. -/
def helloWorldMain (createOk : Bool) (dostringOk : Bool) : List Event × ProcResult :=
  if createOk = false then
    ([Event.printErr "Failed to create Lua state\n"], ⟨some (-1), 0⟩)
  else if dostringOk = false then
    ([Event.printErr "Failed to do string\n"], ⟨some (-1), 0⟩)
  else
    ([], ⟨some 0, 1⟩)

/-- `main` of `calling-lua-function.cpp`: create the state, run
`luaL_dofile` (early return `-1` printing the error, without
`lua_close`), then run `callHello`, `callSwap`, `pcallFail`,
`pcallSwap` in order on the fresh stack, `lua_close`, return `0`.  An
unprotected raise inside `callHello`/`callSwap` aborts the process
before `lua_close`. -/
def callingMain (createOk : Bool) (dofileErr : Option String) (env : Env)
    (helloOutcome swapOutcome : CallOutcome)
    (failOutcome pswapOutcome : PcallOutcome) : List Event × ProcResult :=
  if createOk = false then
    ([Event.printErr "Failed to create Lua state\n"], ⟨some (-1), 0⟩)
  else
    match dofileErr with
    | some msg => ([Event.printOut ("Error: " ++ msg ++ "\n")], ⟨some (-1), 0⟩)
    | none =>
        let r1 := callHello env [] helloOutcome
        match r1.2 with
        | none => (r1.1, ⟨none, 0⟩)
        | some s1 =>
            let r2 := callSwap env s1 swapOutcome
            match r2.2 with
            | none => (r1.1 ++ r2.1, ⟨none, 0⟩)
            | some s2 =>
                let r3 := pcallFail env s2 failOutcome
                let r4 := pcallSwap env r3.2 pswapOutcome
                (r1.1 ++ r2.1 ++ r3.1 ++ r4.1, ⟨some 0, 1⟩)

/-- An environment in which no global is defined. -/
def absentEnv : Env := fun _ => Value.nil

/-- An environment in which the three script globals of
`calling-lua-function.lua` are defined. -/
def demoEnv : Env := fun name =>
  if name = "hello" then Value.luafunction "hello"
  else if name = "swap" then Value.luafunction "swap"
  else if name = "fail" then Value.luafunction "fail"
  else Value.nil

/-- The number of results pushed by an adjusted call is exactly the
declared result count. -/
theorem adjustResults_length (n : Nat) (res : List Value) :
    (adjustResults n res).length = n := by
  simp only [adjustResults, List.length_append, List.length_take,
    List.length_replicate]
  omega

/-- `lua_settop` to a depth no larger than the current one yields a
stack of exactly that depth. -/
theorem lua_settop_length (s : List Value) (t : Nat) (h : t ≤ s.length) :
    (lua_settop s t).length = t := by
  simp only [lua_settop, if_pos h, List.length_drop]
  omega

/-- Stack and status at the return of the protected call inside
`pcallFail` when the call fails: the callable was consumed, the single
error value pushed. -/
theorem pcallFailAtReturn_failure (env : Env) (stack : List Value)
    (est : ErrStatus) (ev : Value) :
    pcallFailAtReturn env stack (PcallOutcome.failure est ev)
      = (Status.err est, ev :: stack) := by
  simp [pcallFailAtReturn, lua_pcall, lua_getglobal]

/-- Stack and status at the return of the protected call inside
`pcallFail` when the call succeeds: the callable was consumed, zero
results (the declared count) pushed. -/
theorem pcallFailAtReturn_success (env : Env) (stack : List Value)
    (res : List Value) :
    pcallFailAtReturn env stack (PcallOutcome.success res)
      = (Status.ok, stack) := by
  simp [pcallFailAtReturn, lua_pcall, lua_getglobal, adjustResults]

/-- Stack and status at the return of the protected call inside
`pcallSwap` when the call fails: the callable and the argument were
consumed, the error value pushed, the installed handler still below. -/
theorem pcallSwapAtReturn_failure (env : Env) (stack : List Value)
    (est : ErrStatus) (ev : Value) :
    pcallSwapAtReturn env stack (PcallOutcome.failure est ev)
      = (Status.err est, ev :: Value.cfunction messageHandlerId :: stack) := by
  simp [pcallSwapAtReturn, lua_pcall, lua_pushcfunction, lua_getglobal,
    lua_pushstring]

/-- Stack and status at the return of the protected call inside
`pcallSwap` when the call succeeds: the callable and the argument were
consumed, two results pushed, the installed handler still below. -/
theorem pcallSwapAtReturn_success (env : Env) (stack : List Value)
    (res : List Value) :
    pcallSwapAtReturn env stack (PcallOutcome.success res)
      = (Status.ok,
         (adjustResults 2 res).reverse ++ Value.cfunction messageHandlerId :: stack) := by
  simp [pcallSwapAtReturn, lua_pcall, lua_pushcfunction, lua_getglobal,
    lua_pushstring]

/-- A concrete call stack for exercising the message handler, innermost
frame first (the handler's own C frame is the innermost). -/
def demoFrames : List String :=
  ["[C]: in function messageHandler",
   "calling-lua-function.lua:7: in function swap",
   "[C]: in ?"]

/-- Claim C7: for every raised error handled by `messageHandler` whose
value has a textual form `m` (`lua_tostring` non-null), the handler
pushes the traceback seeded from `m` with level `1` (skipping its own
innermost frame), removes the original error value so the traceback is
the sole value it leaves in its place, and returns exactly one value. -/
theorem messageHandler_replaces_error_with_traceback (rest : List Value)
    (e : Value) (frames : List String) (m : String)
    (h : lua_tostringValue e = some m) :
    (messageHandler (e :: rest) frames).1 = 1 ∧
    (messageHandler (e :: rest) frames).2
      = Value.str (tracebackString (some m) 1 frames) :: rest := by
  simp [messageHandler, lua_tostringNeg, lua_removeNeg, h]

/-- Claim C7 witness: the handler applied to the string error `"boom"`
on the concrete frame list. -/
theorem messageHandler_replaces_error_with_traceback_witness :
    lua_tostringValue (Value.str "boom") = some "boom" ∧
    ((messageHandler [Value.str "boom"] demoFrames).1 = 1 ∧
     (messageHandler [Value.str "boom"] demoFrames).2
       = [Value.str (tracebackString (some "boom") 1 demoFrames)]) := by
  refine ⟨rfl, ?_⟩
  exact messageHandler_replaces_error_with_traceback [] (Value.str "boom")
    demoFrames "boom" rfl

/-- Claim C9: when the raised error value is neither a string nor a
number, its textual form is the null pointer (`none`), so the traceback
`messageHandler` produces is not seeded with the original error's text
(the result is independent of the error value); the handler still
returns exactly one traceback value and does not itself raise. -/
theorem messageHandler_nontextual_error (rest : List Value) (e : Value)
    (frames : List String) (h : lua_tostringValue e = none) :
    (messageHandler (e :: rest) frames).1 = 1 ∧
    (messageHandler (e :: rest) frames).2
      = Value.str (tracebackString none 1 frames) :: rest := by
  simp [messageHandler, lua_tostringNeg, lua_removeNeg, h]

/-- Claim C9 witness: a table error value has no textual form, and the
handler leaves only the unseeded traceback. -/
theorem messageHandler_nontextual_error_witness :
    lua_tostringValue (Value.table 0) = none ∧
    ((messageHandler [Value.table 0] demoFrames).1 = 1 ∧
     (messageHandler [Value.table 0] demoFrames).2
       = [Value.str (tracebackString none 1 demoFrames)]) := by
  refine ⟨rfl, ?_⟩
  exact messageHandler_nontextual_error [] (Value.table 0) demoFrames rfl

/-- Claim C8: when the global `hello` is absent (the lookup pushes
`nil`), `callHello` prints the diagnostic and returns early without
popping the pushed `nil` and without invoking the call primitive, so
the stack is one slot deeper than on entry. -/
theorem callHello_absent_leaks_nil (env : Env) (stack : List Value)
    (outcome : CallOutcome) (h : env "hello" = Value.nil) :
    (callHello env stack outcome).1
      = [Event.printErr "Global function hello not found\n"] ∧
    (callHello env stack outcome).2 = some (Value.nil :: stack) ∧
    ((callHello env stack outcome).2.getD []).length = stack.length + 1 := by
  simp [callHello, lua_getglobal, lua_isnil, h]

/-- Claim C8 witness: `callHello` on the empty environment leaves the
single `nil` on an initially empty stack. -/
theorem callHello_absent_leaks_nil_witness :
    absentEnv "hello" = Value.nil ∧
    (callHello absentEnv [] (CallOutcome.success [])).2 = some [Value.nil] := by
  refine ⟨rfl, ?_⟩
  exact (callHello_absent_leaks_nil absentEnv [] (CallOutcome.success []) rfl).2.1

/-- Claim C10: when the unprotected call inside `callSwap` runs to
completion, `callSwap` returns with the stack exactly as it was on
entry: the call consumed the pushed callable and the two arguments,
exactly two (adjusted) results were pushed, and `callSwap` pops exactly
those two results. -/
theorem callSwap_success_balanced (env : Env) (stack : List Value)
    (results : List Value) :
    (callSwap env stack (CallOutcome.success results)).2 = some stack := by
  have hstep : (callSwap env stack (CallOutcome.success results)).2
      = some (((adjustResults 2 results).reverse ++ stack).drop 2) := rfl
  have hlen : ((adjustResults 2 results).reverse).length = 2 := by
    simp [adjustResults_length]
  rw [hstep, List.drop_left' hlen]

/-- Claim C1 counterexample: in both host programs, on the path where
the interpreter state was successfully created but loading/running the
script source fails, `main` returns `-1` early and `lua_close` runs
zero times, not once. -/
theorem state_leak_on_load_failure :
    (helloWorldMain true false).2 = ⟨some (-1), 0⟩ ∧
    (callingMain true (some "cannot open calling-lua-function.lua") demoEnv
        (CallOutcome.success []) (CallOutcome.success [])
        (PcallOutcome.success []) (PcallOutcome.success [])).2
      = ⟨some (-1), 0⟩ := by
  decide

/-- Claim C1 amended: in both host programs the instance is released
exactly once precisely on the fully successful path (exit code `0`);
on every other path — creation failure, the early-return load/run
failure paths, and a process abort through an unprotected raise — the
process exits without `lua_close` running at all. -/
theorem state_closed_iff_clean_exit (createOk dostringOk : Bool)
    (dofileErr : Option String) (env : Env)
    (ho so : CallOutcome) (fo po : PcallOutcome) :
    ((helloWorldMain createOk dostringOk).2.closes
      = if (helloWorldMain createOk dostringOk).2.exitCode = some 0 then 1 else 0) ∧
    ((callingMain createOk dofileErr env ho so fo po).2.closes
      = if (callingMain createOk dofileErr env ho so fo po).2.exitCode = some 0
        then 1 else 0) := by
  constructor
  · rcases createOk <;> rcases dostringOk <;> decide
  · rcases createOk
    · simp [callingMain]
    · rcases dofileErr with _ | msg
      · rcases h1 : (callHello env [] ho).2 with _ | s1
        · simp [callingMain, h1]
        · rcases h2 : (callSwap env s1 so).2 with _ | s2
          · simp [callingMain, h1, h2]
          · simp [callingMain, h1, h2]
      · simp [callingMain]

/-- Claim C2 counterexample: `pcallSwap` performs no lookup check, so
with `swap` absent from the environment it invokes `lua_pcall` anyway
and never reports a lookup failure; the missing name surfaces as an
interpreter-level error (`LUA_ERRRUN`, "attempt to call a nil value")
instead. -/
theorem pcallSwap_absent_invokes_pcall :
    absentEnv "swap" = Value.nil ∧
    (pcallSwap absentEnv [] (PcallOutcome.failure ErrStatus.errrun
        (Value.str "attempt to call a nil value"))).1
      = [Event.pcallInvoked 1 2,
         Event.printErr "attempt to call a nil value\n"] := by
  decide

/-- Claim C2 amended: only `pcallFail` checks the lookup result — when
`fail` is absent it reports the lookup failure and returns with
`lua_pcall` never invoked (its whole event trace is the diagnostic);
`pcallSwap` invokes `lua_pcall` unconditionally, whatever the
environment holds. -/
theorem pcall_lookup_check_only_in_pcallFail (env : Env) (stack : List Value)
    (o o' : PcallOutcome) (h : env "fail" = Value.nil) :
    (pcallFail env stack o).1
      = [Event.printErr "Global function fail not found\n"] ∧
    Event.pcallInvoked 1 2 ∈ (pcallSwap env stack o').1 := by
  constructor
  · simp [pcallFail, lua_isnil, lua_getglobal, h]
  · rcases o' with res | ⟨est, ev⟩
    · simp [pcallSwap, pcallSwapAtReturn_success]
    · rcases est <;> simp [pcallSwap, pcallSwapAtReturn_failure]

/-- Claim C2 amended witness: on the empty environment `pcallFail`
reports the lookup failure without invoking `lua_pcall`. -/
theorem pcall_lookup_check_only_in_pcallFail_witness :
    absentEnv "fail" = Value.nil ∧
    (pcallFail absentEnv [] (PcallOutcome.success [])).1
      = [Event.printErr "Global function fail not found\n"] := by
  refine ⟨rfl, ?_⟩
  exact (pcall_lookup_check_only_in_pcallFail absentEnv []
    (PcallOutcome.success []) (PcallOutcome.success []) rfl).1

/-- Claim C3 counterexample: `callSwap` performs no check on the looked
up global: with `swap` absent it invokes `lua_call` anyway (on the
pushed `nil`) and reports nothing — its whole event trace is the
invocation itself. -/
theorem callSwap_absent_invokes_call :
    absentEnv "swap" = Value.nil ∧
    (callSwap absentEnv [] (CallOutcome.raise
        (Value.str "attempt to call a nil value"))).1
      = [Event.callInvoked 2 2] := by
  decide

/-- Claim C3 amended: only `callHello` guards its unprotected call, and
only against `nil` (not against a non-callable value): when `hello` is
absent it reports the lookup failure and returns without invoking;
`callSwap` invokes `lua_call` unconditionally. -/
theorem call_lookup_check_only_in_callHello (env : Env) (stack : List Value)
    (o o' : CallOutcome) (h : env "hello" = Value.nil) :
    (callHello env stack o).1
      = [Event.printErr "Global function hello not found\n"] ∧
    Event.callInvoked 2 2 ∈ (callSwap env stack o').1 := by
  constructor
  · simp [callHello, lua_getglobal, lua_isnil, h]
  · rcases o' with res | ev <;>
      simp [callSwap, lua_call, lua_getglobal, lua_pushstring]

/-- Claim C3 amended witness: on the empty environment `callHello`
reports the lookup failure without invoking `lua_call`. -/
theorem call_lookup_check_only_in_callHello_witness :
    absentEnv "hello" = Value.nil ∧
    (callHello absentEnv [] (CallOutcome.success [])).1
      = [Event.printErr "Global function hello not found\n"] := by
  refine ⟨rfl, ?_⟩
  exact (call_lookup_check_only_in_callHello absentEnv []
    (CallOutcome.success []) (CallOutcome.success []) rfl).1

/-- Claim C4 counterexample: after `pcallSwap` handles a `LUA_ERRRUN`
status (popping the error value), the stack is one slot deeper than
before the operation began — the pushed error handler is left behind,
so repeated calls leak one slot each. -/
theorem pcallSwap_errrun_leaks_handler :
    (pcallSwap demoEnv [] (PcallOutcome.failure ErrStatus.errrun
        (Value.str "attempt to concatenate a nil value"))).2
      = [Value.cfunction messageHandlerId] ∧
    (pcallSwap demoEnv [] (PcallOutcome.failure ErrStatus.errrun
        (Value.str "attempt to concatenate a nil value"))).2.length
      ≠ ([] : List Value).length := by
  decide

/-- Claim C4 amended: the residual stack depth of each protected-call
bridge function over its entry depth is: `pcallFail` — zero on the `OK`
and `LUA_ERRRUN` paths, one (the unpopped error value) on the other
error statuses; `pcallSwap` — zero on the `OK` path (`lua_settop`), one
(the leaked handler) after handling `LUA_ERRRUN`, and two (handler and
unpopped error value) on the other error statuses. -/
theorem pcall_bridge_residual_depth (env : Env) (stack : List Value)
    (res : List Value) (est : ErrStatus) (ev : Value)
    (hfail : env "fail" ≠ Value.nil) :
    (pcallFail env stack (PcallOutcome.success res)).2.length = stack.length ∧
    (pcallFail env stack (PcallOutcome.failure ErrStatus.errrun ev)).2.length
      = stack.length ∧
    (est ≠ ErrStatus.errrun →
      (pcallFail env stack (PcallOutcome.failure est ev)).2.length
        = stack.length + 1) ∧
    (pcallSwap env stack (PcallOutcome.success res)).2.length = stack.length ∧
    (pcallSwap env stack (PcallOutcome.failure ErrStatus.errrun ev)).2.length
      = stack.length + 1 ∧
    (est ≠ ErrStatus.errrun →
      (pcallSwap env stack (PcallOutcome.failure est ev)).2.length
        = stack.length + 2) := by
  have hnil : lua_isnil (lua_getglobal env stack "fail") = false := by
    simp [lua_isnil, lua_getglobal, hfail]
  refine ⟨?_, ?_, ?_, ?_, ?_, ?_⟩
  · simp [pcallFail, hnil, pcallFailAtReturn_success]
  · simp [pcallFail, hnil, pcallFailAtReturn_failure, lua_pop]
  · intro hest
    rcases est
    · exact absurd rfl hest
    · simp [pcallFail, hnil, pcallFailAtReturn_failure]
    · simp [pcallFail, hnil, pcallFailAtReturn_failure]
    · simp [pcallFail, hnil, pcallFailAtReturn_failure]
  · have hlen : ((adjustResults 2 res).reverse
        ++ Value.cfunction messageHandlerId :: stack).length
        = stack.length + 3 := by
      simp [adjustResults_length]
      omega
    simp only [pcallSwap, pcallSwapAtReturn_success, lua_gettop]
    exact lua_settop_length _ _ (by rw [hlen]; omega)
  · simp [pcallSwap, pcallSwapAtReturn_failure, lua_pop]
  · intro hest
    rcases est
    · exact absurd rfl hest
    · simp [pcallSwap, pcallSwapAtReturn_failure]
    · simp [pcallSwap, pcallSwapAtReturn_failure]
    · simp [pcallSwap, pcallSwapAtReturn_failure]

/-- Claim C4 amended witness: with the script globals defined,
`pcallSwap` handling `LUA_ERRRUN` on an empty entry stack ends one slot
deep. -/
theorem pcall_bridge_residual_depth_witness :
    demoEnv "fail" ≠ Value.nil ∧
    (pcallSwap demoEnv [] (PcallOutcome.failure ErrStatus.errrun
        (Value.str "e"))).2.length = 0 + 1 := by
  refine ⟨by decide, ?_⟩
  exact (pcall_bridge_residual_depth demoEnv [] [] ErrStatus.errmem
    (Value.str "e") (by decide)).2.2.2.2.1

/-- Claim C5 counterexample: immediately after the protected call in
`pcallSwap` returns `LUA_ERRRUN` and before anything is popped, the
stack is two slots deeper than before the call sequence began (the
error value above the still-installed handler), not one. -/
theorem pcallSwap_failure_depth_not_plus_one :
    (pcallSwapAtReturn demoEnv [] (PcallOutcome.failure ErrStatus.errrun
        (Value.str "attempt to concatenate a nil value"))).2.length
      = ([] : List Value).length + 2 ∧
    (pcallSwapAtReturn demoEnv [] (PcallOutcome.failure ErrStatus.errrun
        (Value.str "attempt to concatenate a nil value"))).2.length
      ≠ ([] : List Value).length + 1 := by
  decide

/-- Claim C5 amended: immediately after a failing protected call and
before any popping, exactly one error value sits on top of whatever the
call sequence had below the consumed callable: for `pcallFail` the
depth is the pre-sequence depth plus one; for `pcallSwap` it is the
pre-sequence depth plus two, because the handler pushed at the start of
the sequence is still below the single error value.  Relative to the
depth just before the callable was pushed, both are plus exactly one. -/
theorem pcall_failure_stack_shape (env : Env) (stack : List Value)
    (est : ErrStatus) (ev : Value) :
    (pcallFailAtReturn env stack (PcallOutcome.failure est ev)).1
      = Status.err est ∧
    (pcallFailAtReturn env stack (PcallOutcome.failure est ev)).2
      = ev :: stack ∧
    (pcallFailAtReturn env stack (PcallOutcome.failure est ev)).2.length
      = stack.length + 1 ∧
    (pcallSwapAtReturn env stack (PcallOutcome.failure est ev)).1
      = Status.err est ∧
    (pcallSwapAtReturn env stack (PcallOutcome.failure est ev)).2
      = ev :: Value.cfunction messageHandlerId :: stack ∧
    (pcallSwapAtReturn env stack (PcallOutcome.failure est ev)).2.length
      = stack.length + 2 := by
  simp [pcallFailAtReturn_failure, pcallSwapAtReturn_failure]

/-- Claim C6 counterexample: immediately after the protected call in
`pcallSwap` returns `LUA_OK` with its two declared results, the stack
is three slots deeper than before the call sequence began (two results
above the still-installed handler), not two. -/
theorem pcallSwap_success_depth_not_result_count :
    (pcallSwapAtReturn demoEnv [] (PcallOutcome.success
        [Value.str "green", Value.str "red"])).2.length
      = ([] : List Value).length + 3 ∧
    (pcallSwapAtReturn demoEnv [] (PcallOutcome.success
        [Value.str "green", Value.str "red"])).2.length
      ≠ ([] : List Value).length + 2 := by
  decide

/-- Claim C6 amended: immediately after a successful protected call and
before results are consumed, the depth is the pre-sequence depth plus
exactly the declared result count for `pcallFail` (zero results, no
handler), and plus the declared result count plus one for `pcallSwap`
(two results above the still-installed handler).  Relative to the depth
just before the callable was pushed, both are plus exactly the declared
result count. -/
theorem pcall_success_stack_depth (env : Env) (stack : List Value)
    (res : List Value) :
    (pcallFailAtReturn env stack (PcallOutcome.success res)).1 = Status.ok ∧
    (pcallFailAtReturn env stack (PcallOutcome.success res)).2.length
      = stack.length ∧
    (pcallSwapAtReturn env stack (PcallOutcome.success res)).1 = Status.ok ∧
    (pcallSwapAtReturn env stack (PcallOutcome.success res)).2.length
      = stack.length + 2 + 1 := by
  refine ⟨?_, ?_, ?_, ?_⟩
  · simp [pcallFailAtReturn_success]
  · simp [pcallFailAtReturn_success]
  · simp [pcallSwapAtReturn_success]
  · simp [pcallSwapAtReturn_success, adjustResults_length]
    omega
